import Mathlib

/-!
Shallow embedding of the request-authentication layer of the repository
(`api/v1/auth/auth.py`, `basic_auth.py`, `session_auth.py`,
`session_exp_auth.py`, `session_db_auth.py` and the `before_request` gate of
`api/v1/app.py`, session-authentication project), together with theorems
settling the specification claims about it.

Conventions of the embedding:
* Python `None` becomes `Option.none`; a Python value that may be `None`
  becomes an `Option`.
* Python dictionaries keyed by strings become association lists, with the
  most recent binding for a key first; `dict_get`, `dict_set`, `dict_del`
  model `d.get(k)`, `d[k] = v` and record removal.
* The mutable session registries become explicit state arguments that the
  operations take and return.
* `datetime.now()` and `timedelta(seconds=...)` become integer timestamps
  and durations in seconds, passed explicitly.
* `uuid.uuid4()` becomes an explicit parameter carrying the fresh token.
-/

/-- Python `d.get(k)` on a string-keyed dict modelled as an association list
(first binding for a key wins). -/
def dict_get {V : Type} : List (String × V) → String → Option V
  | [], _ => none
  | p :: rest, k => if p.1 = k then some p.2 else dict_get rest k

/-- Removal of every binding for key `k` (Python `del d[k]` / deleting the
record stored under `k`). -/
def dict_del {V : Type} : List (String × V) → String → List (String × V)
  | [], _ => []
  | p :: rest, k => if p.1 = k then dict_del rest k else p :: dict_del rest k

/-- Python `d[k] = v`: the new binding replaces any previous one. -/
def dict_set {V : Type} (m : List (String × V)) (k : String) (v : V) :
    List (String × V) :=
  (k, v) :: dict_del m k

/-- Python `s.rstrip('/')` on a character list: drop every trailing `/`. -/
def rstrip_slash_data (l : List Char) : List Char :=
  (l.reverse.dropWhile (fun c => c = '/')).reverse

/-- Python `s.startswith(pattern)` on character lists. -/
def starts_with_data : List Char → List Char → Bool
  | _, [] => true
  | [], _ :: _ => false
  | c :: cs, p :: ps => if c = p then starts_with_data cs ps else false

/-- Python `s.split(sep, 1)` on a character list: the text before the first
occurrence of `sep` and, when `sep` occurs, the text after it. -/
def split_once_list (sep : Char) : List Char → List Char × Option (List Char)
  | [] => ([], none)
  | c :: cs =>
    if c = sep then ([], some cs)
    else
      let r := split_once_list sep cs
      (c :: r.1, r.2)

/-- Python `s.split(sep, 1)` on strings. The second component is `none`
exactly when `sep` does not occur in `s`. -/
def split_once (sep : Char) (s : String) : String × Option String :=
  let r := split_once_list sep s.data
  (String.mk r.1, r.2.map String.mk)

/-- An inbound HTTP request, reduced to the parts the authentication layer
reads: the URL path, the header mapping and the cookie mapping. -/
structure Request where
  path : String
  headers : List (String × String)
  cookies : List (String × String)

/-- The normalization `Auth.require_auth` applies to the incoming path and to
non-wildcard excluded entries: `p.rstrip('/') + '/'`. -/
def normalize_path (s : String) : String :=
  String.mk (rstrip_slash_data s.data ++ ['/'])

/-- One iteration of the exclusion loop of `Auth.require_auth`
(session-authentication variant): an entry ending in `*`
(`excluded_path.endswith('*')`) matches when the normalized path starts with
`excluded_path[:-1].rstrip('/') + '/'`, the normalized prefix before the
`*`; any other entry matches when the normalized path equals the entry
after the same normalization. -/
def excluded_match (npath : String) (excluded_path : String) : Bool :=
  if excluded_path.data.getLast? = some '*' then
    starts_with_data npath.data
      (rstrip_slash_data excluded_path.data.dropLast ++ ['/'])
  else
    npath = normalize_path excluded_path

namespace Auth

/-- The `for excluded_path in excluded_paths` loop of `Auth.require_auth`:
return `False` on the first matching entry, `True` when the loop ends. -/
def require_auth_loop (npath : String) : List String → Bool
  | [] => true
  | e :: rest =>
    if excluded_match npath e then false else require_auth_loop npath rest

/-- `Auth.require_auth(path, excluded_paths)` of
`0x02-Session_authentication/api/v1/auth/auth.py`: `True` when `path` or
`excluded_paths` is `None` or the list is empty; otherwise the path is
normalized and checked against each (wildcard or exact) entry. -/
def require_auth (path : Option String) (excluded_paths : Option (List String)) :
    Bool :=
  match path, excluded_paths with
  | none, _ => true
  | _, none => true
  | some p, some es =>
    if es.length = 0 then true
    else require_auth_loop (normalize_path p) es

/-- `Auth.authorization_header(request)`: `request.headers.get('Authorization',
None)`, `None` when there is no request. -/
def authorization_header (req : Option Request) : Option String :=
  match req with
  | none => none
  | some r => dict_get r.headers "Authorization"

/-- `Auth.current_user(request)`: the base class always returns `None`. -/
def current_user (_req : Option Request) : Option String :=
  none

/-- `Auth.session_cookie(request)`: read the cookie named by the
`SESSION_NAME` environment value (`request.cookies.get(session_name)`); when
the request is absent, or the configured name is absent (a `None` key is
never a cookie key), the result is `None`. -/
def session_cookie (session_name : Option String) (req : Option Request) :
    Option String :=
  match req with
  | none => none
  | some r =>
    match session_name with
    | none => none
    | some n => dict_get r.cookies n

end Auth

/-- Index of a character in the standard base64 alphabet, absence for any
other character. -/
def b64_index (c : Char) : Option Nat :=
  if 'A' ≤ c ∧ c ≤ 'Z' then some (c.toNat - 'A'.toNat)
  else if 'a' ≤ c ∧ c ≤ 'z' then some (c.toNat - 'a'.toNat + 26)
  else if '0' ≤ c ∧ c ≤ '9' then some (c.toNat - '0'.toNat + 52)
  else if c = '+' then some 62
  else if c = '/' then some 63
  else none

/-- Decode 4-character base64 quanta into bytes. Padding (`=`) is accepted
only in the final quantum; leftover characters (length not a multiple of 4)
or misplaced padding give absence, matching the `binascii.Error`
(a `ValueError`) that `base64.b64decode` raises on incorrect padding. -/
def b64_groups : List Char → Option (List Nat)
  | [] => some []
  | a :: b :: c :: d :: rest => do
    let x ← b64_index a
    let y ← b64_index b
    if d = '=' then
      if rest.isEmpty then
        if c = '=' then some [x * 4 + y / 16]
        else do
          let z ← b64_index c
          some [x * 4 + y / 16, (y % 16) * 16 + z / 4]
      else none
    else do
      let z ← b64_index c
      let w ← b64_index d
      let tail ← b64_groups rest
      some ((x * 4 + y / 16) :: ((y % 16) * 16 + z / 4) :: ((z % 4) * 64 + w) :: tail)
  | _ => none

/-- Python `base64.b64decode` on a `str` argument with default
`validate=False`: characters outside the alphabet and `=` are discarded,
then the remaining quanta are decoded; decoding errors become absence. -/
def b64decode (s : String) : Option (List Nat) :=
  b64_groups (s.data.filter (fun c => (b64_index c).isSome || c = '='))

/-- Lower bound for the second byte of a multi-byte UTF-8 sequence led by
`b1` (rules out overlong encodings). -/
def utf8_b2_lo (b1 : Nat) : Nat :=
  if b1 = 0xE0 then 0xA0 else if b1 = 0xF0 then 0x90 else 0x80

/-- Upper bound (exclusive) for the second byte of a multi-byte UTF-8
sequence led by `b1` (rules out surrogates and codepoints past U+10FFFF). -/
def utf8_b2_hi (b1 : Nat) : Nat :=
  if b1 = 0xED then 0xA0 else if b1 = 0xF4 then 0x90 else 0xC0

/-- Strict UTF-8 decoding of a byte list into characters, absence on any
malformed sequence — the semantics of Python `bytes.decode('utf-8')`, whose
`UnicodeDecodeError` is a `ValueError`. -/
def utf8_decode : List Nat → Option (List Char)
  | [] => some []
  | b1 :: rest =>
    if b1 < 0x80 then
      (utf8_decode rest).map (fun cs => Char.ofNat b1 :: cs)
    else if b1 < 0xC2 then none
    else if b1 < 0xE0 then
      match rest with
      | b2 :: rest2 =>
        if 0x80 ≤ b2 ∧ b2 < 0xC0 then
          (utf8_decode rest2).map
            (fun cs => Char.ofNat ((b1 - 0xC0) * 0x40 + (b2 - 0x80)) :: cs)
        else none
      | [] => none
    else if b1 < 0xF0 then
      match rest with
      | b2 :: b3 :: rest3 =>
        if utf8_b2_lo b1 ≤ b2 ∧ b2 < utf8_b2_hi b1 ∧
            0x80 ≤ b3 ∧ b3 < 0xC0 then
          (utf8_decode rest3).map
            (fun cs =>
              Char.ofNat
                ((b1 - 0xE0) * 0x1000 + (b2 - 0x80) * 0x40 + (b3 - 0x80)) :: cs)
        else none
      | _ => none
    else if b1 < 0xF5 then
      match rest with
      | b2 :: b3 :: b4 :: rest4 =>
        if utf8_b2_lo b1 ≤ b2 ∧ b2 < utf8_b2_hi b1 ∧
            0x80 ≤ b3 ∧ b3 < 0xC0 ∧ 0x80 ≤ b4 ∧ b4 < 0xC0 then
          (utf8_decode rest4).map
            (fun cs =>
              Char.ofNat
                ((b1 - 0xF0) * 0x40000 + (b2 - 0x80) * 0x1000 +
                  (b3 - 0x80) * 0x40 + (b4 - 0x80)) :: cs)
        else none
      | _ => none
    else none

namespace BasicAuth

/-- `BasicAuth.extract_base64_authorization_header`: `None` when the header
is missing or does not start with the literal `"Basic "`, otherwise
`header.split(" ", 1)[1]` — everything after the first space. -/
def extract_base64_authorization_header (header : Option String) :
    Option String :=
  match header with
  | none => none
  | some s =>
    if starts_with_data s.data "Basic ".data then (split_once ' ' s).2
    else none

/-- `BasicAuth.decode_base64_authorization_header`:
`base64.b64decode(value).decode('utf-8')` with every `ValueError` /
`TypeError` caught and turned into `None`. -/
def decode_base64_authorization_header (value : Option String) :
    Option String :=
  match value with
  | none => none
  | some s =>
    match b64decode s with
    | none => none
    | some bytes =>
      match utf8_decode bytes with
      | none => none
      | some cs => some (String.mk cs)

/-- `BasicAuth.extract_user_credentials`: `(None, None)` when the decoded
text is missing or contains no colon (`":" not in s`), otherwise
`s.split(":", 1)`, the split on the first colon. `split_once` returns `none`
in its second component exactly when the separator does not occur. -/
def extract_user_credentials (decoded : Option String) :
    Option String × Option String :=
  match decoded with
  | none => (none, none)
  | some s =>
    match split_once ':' s with
    | (_, none) => (none, none)
    | (user_email, some user_pwd) => (some user_email, some user_pwd)

end BasicAuth

namespace SessionAuth

/-- The class-level dict `SessionAuth.user_id_by_session_id`, mapping session
tokens to principal ids. -/
abbrev SessionStore := List (String × String)

/-- `SessionAuth.create_session(user_id)`: `None` when `user_id` is `None`
(the `isinstance(user_id, str)` guard is vacuous in the model, where a
present id is always a string); otherwise a fresh token — `str(uuid.uuid4())`,
passed here explicitly as `session_id` — is stored as a binding
`session_id ↦ user_id` and returned. -/
def create_session (session_id : String) (user_id : Option String)
    (st : SessionStore) : Option String × SessionStore :=
  match user_id with
  | none => (none, st)
  | some uid => (some session_id, dict_set st session_id uid)

/-- `SessionAuth.user_id_for_session_id(session_id)`:
`self.user_id_by_session_id.get(session_id)`, `None` when the token is
absent. -/
def user_id_for_session_id (session_id : Option String) (st : SessionStore) :
    Option String :=
  match session_id with
  | none => none
  | some sid => dict_get st sid

/-- Modelled from the spec: `models/user.py` (the CredentialStore) is not
under `src/`; per the spec it looks up a user record by id, with absence on
no match. The principal is represented by its id, the store by the list of
known ids. -/
def User_get (users : List String) (uid : String) : Option String :=
  if uid ∈ users then some uid else none

/-- `SessionAuth.current_user(request)`: read the session cookie, resolve it
through `user_id_for_session_id`, then fetch the user via `User.get`. -/
def current_user (session_name : Option String) (users : List String)
    (st : SessionStore) (req : Option Request) : Option String :=
  match req with
  | none => none
  | some r =>
    match user_id_for_session_id (Auth.session_cookie session_name (some r)) st with
    | none => none
    | some uid => User_get users uid

/-- Modelled from the spec: `SessionAuth.destroy_session` is not under
`src/` (only its caller, the logout view `DELETE /auth_session/logout`);
per the spec it removes the record tied to the request's session cookie and
returns false if no token is present or no matching record exists. -/
def destroy_session (session_name : Option String) (req : Option Request)
    (st : SessionStore) : Bool × SessionStore :=
  match req with
  | none => (false, st)
  | some r =>
    match Auth.session_cookie session_name (some r) with
    | none => (false, st)
    | some sid =>
      match dict_get st sid with
      | none => (false, st)
      | some _ => (true, dict_del st sid)

end SessionAuth

namespace SessionExpAuth

/-- The value stored by `SessionExpAuth.create_session` under a token:
the session dictionary `{"user_id": ..., "created_at": ...}`. -/
structure ExpRecord where
  user_id : String
  created_at : Int
deriving DecidableEq

/-- `user_id_by_session_id` as used by `SessionExpAuth`: tokens map to
session dictionaries. -/
abbrev ExpStore := List (String × ExpRecord)

/-- `SessionExpAuth.create_session(user_id)`: the parent first stores
`session_id ↦ user_id`, then the override replaces that same binding with
the session dictionary carrying `user_id` and `created_at = datetime.now()`
(passed here as `now`); `None` when the parent returns `None` (absent
`user_id`). -/
def create_session (session_id : String) (now : Int) (user_id : Option String)
    (st : ExpStore) : Option String × ExpStore :=
  match user_id with
  | none => (none, st)
  | some uid => (some session_id, dict_set st session_id ⟨uid, now⟩)

/-- `SessionExpAuth.user_id_for_session_id(session_id)`: absence when the
token is absent or unknown; the stored id when `session_duration <= 0`;
otherwise absence once `datetime.now() > created_at +
timedelta(seconds=session_duration)`, the stored id otherwise. (The
source's `created_at is None` branch cannot fire in the model: every stored
record carries `created_at`.) -/
def user_id_for_session_id (session_duration : Int) (now : Int)
    (session_id : Option String) (st : ExpStore) : Option String :=
  match session_id with
  | none => none
  | some sid =>
    match dict_get st sid with
    | none => none
    | some session_data =>
      if session_duration ≤ 0 then some session_data.user_id
      else if now > session_data.created_at + session_duration then none
      else some session_data.user_id

end SessionExpAuth

namespace SessionDBAuth

/-- A persisted `UserSession` record: `user_id` and `session_id` from the
constructor plus the `created_at` timestamp every stored model carries. -/
structure UserSessionRecord where
  user_id : String
  created_at : Int
deriving DecidableEq

/-- The durable store of `UserSession` records, keyed by session token. -/
abbrev DBStore := List (String × UserSessionRecord)

/-- Modelled from the spec: `models/base.py` (the durable storage behind
`UserSession.get` / `save` / `remove`) is not under `src/`; per the spec,
creation writes a persisted record for the token, lookup reads it back and
destruction deletes it. -/
def UserSession_get (db : DBStore) (session_id : String) :
    Option UserSessionRecord :=
  dict_get db session_id

/-- Modelled from the spec: deletion of the persisted record for a token
(`user_session.remove()`). -/
def UserSession_remove (db : DBStore) (session_id : String) : DBStore :=
  dict_del db session_id

/-- `SessionDBAuth.user_id_for_session_id(session_id)`: absence when the
token is absent or no persisted record exists, otherwise the stored
`user_id`. Note: unlike its parent `SessionExpAuth`, the override consults
neither `session_duration` nor any timestamp. -/
def user_id_for_session_id (session_id : Option String) (db : DBStore) :
    Option String :=
  match session_id with
  | none => none
  | some sid =>
    match UserSession_get db sid with
    | none => none
    | some user_session => some user_session.user_id

/-- `SessionDBAuth.destroy_session(request)`: false when the request, the
session cookie, or the persisted record is absent; otherwise the record is
removed and true is returned. -/
def destroy_session (session_name : Option String) (req : Option Request)
    (db : DBStore) : Bool × DBStore :=
  match req with
  | none => (false, db)
  | some r =>
    match Auth.session_cookie session_name (some r) with
    | none => (false, db)
    | some sid =>
      match UserSession_get db sid with
      | none => (false, db)
      | some _ => (true, UserSession_remove db sid)

end SessionDBAuth

/-- The operations of an authentication strategy that the request gate
calls, resolved virtually in the source (`auth` is whichever class the
`AUTH_TYPE` environment value selected). -/
structure AuthStrategy where
  require_auth : Option String → Option (List String) → Bool
  authorization_header : Option Request → Option String
  session_cookie : Option Request → Option String
  current_user : Option Request → Option String

/-- Outcome of the `before_request` gate: proceed (with the principal
attached to the request when one was resolved), abort 401, or abort 403. -/
inductive GateDecision where
  | allow : Option String → GateDecision
  | unauthorized : GateDecision
  | forbidden : GateDecision
deriving DecidableEq

/-- The `excluded_paths` literal of the active `before_request` in
`0x02-Session_authentication/api/v1/app.py`. -/
def excluded_paths_app : List String :=
  ["/api/v1/status/", "/api/v1/unauthorized/", "/api/v1/forbidden/"]

/-- The active `before_request` of
`0x02-Session_authentication/api/v1/app.py`: allow when no strategy is
configured or the path is excluded; abort 401 when
`auth.authorization_header(request) is None` (the session cookie is never
consulted); abort 403 when `auth.current_user(request) is None`; otherwise
attach the user and proceed. -/
def before_request (auth : Option AuthStrategy) (req : Request) :
    GateDecision :=
  match auth with
  | none => GateDecision.allow none
  | some a =>
    if a.require_auth (some req.path) (some excluded_paths_app) = false then
      GateDecision.allow none
    else if a.authorization_header (some req) = none then
      GateDecision.unauthorized
    else
      match a.current_user (some req) with
      | none => GateDecision.forbidden
      | some u => GateDecision.allow (some u)

/-- The `excluded_paths` literal of the commented-out `before_request`
kept at the bottom of the same `app.py`. -/
def excluded_paths_app_commented : List String :=
  ["/api/v1/status/", "/api/v1/unauthorized/", "/api/v1/forbidden/",
   "/api/v1/auth_session/login/"]

/-- The commented-out `before_request` kept at the bottom of
`0x02-Session_authentication/api/v1/app.py` (the session-aware gate the
specification describes): abort 401 only when the authorization header AND
the session cookie are both absent. -/
def before_request_commented (auth : Option AuthStrategy) (req : Request) :
    GateDecision :=
  match auth with
  | none => GateDecision.allow none
  | some a =>
    if a.require_auth (some req.path) (some excluded_paths_app_commented) = false then
      GateDecision.allow none
    else if a.authorization_header (some req) = none ∧
        a.session_cookie (some req) = none then
      GateDecision.unauthorized
    else
      match a.current_user (some req) with
      | none => GateDecision.forbidden
      | some u => GateDecision.allow (some u)

/-- The strategy record assembled by a session-authentication
configuration: the shared `Auth` path/header/cookie operations together
with `SessionAuth.current_user` over a given registry state. -/
def session_strategy (session_name : Option String) (users : List String)
    (st : SessionAuth.SessionStore) : AuthStrategy :=
  { require_auth := Auth.require_auth
    authorization_header := Auth.authorization_header
    session_cookie := Auth.session_cookie session_name
    current_user := SessionAuth.current_user session_name users st }

/-! ## Helper lemmas -/

theorem dict_get_dict_set_self {V : Type} (m : List (String × V)) (k : String)
    (v : V) : dict_get (dict_set m k v) k = some v := by
  simp [dict_set, dict_get]

theorem dict_get_dict_del_self {V : Type} (m : List (String × V)) (k : String) :
    dict_get (dict_del m k) k = none := by
  induction m with
  | nil => rfl
  | cons p rest ih =>
    by_cases h : p.1 = k
    · simp [dict_del, h, ih]
    · simp [dict_del, dict_get, h, ih]

theorem require_auth_loop_eq_false_iff (np : String) (es : List String) :
    Auth.require_auth_loop np es = false ↔
      ∃ e ∈ es, excluded_match np e = true := by
  induction es with
  | nil => simp [Auth.require_auth_loop]
  | cons e rest ih =>
    by_cases h : excluded_match np e = true
    · simp [Auth.require_auth_loop, h]
    · simp only [Bool.not_eq_true] at h
      simp [Auth.require_auth_loop, h, ih]

theorem rstrip_slash_data_append (l : List Char) :
    rstrip_slash_data (l ++ ['/']) = rstrip_slash_data l := by
  simp [rstrip_slash_data, List.dropWhile]

theorem normalize_path_append_slash (s : String) :
    normalize_path (s ++ "/") = normalize_path s := by
  obtain ⟨l⟩ := s
  show normalize_path (String.mk (l ++ ['/'])) = normalize_path (String.mk l)
  simp [normalize_path, rstrip_slash_data_append]

theorem split_once_list_of_not_mem (sep : Char) (l : List Char)
    (h : sep ∉ l) : split_once_list sep l = (l, none) := by
  induction l with
  | nil => rfl
  | cons c cs ih =>
    simp only [List.mem_cons, not_or] at h
    simp [split_once_list, Ne.symm h.1, ih h.2]

theorem split_once_list_append (sep : Char) (a b : List Char)
    (h : sep ∉ a) : split_once_list sep (a ++ sep :: b) = (a, some b) := by
  induction a with
  | nil => simp [split_once_list]
  | cons c cs ih =>
    simp only [List.mem_cons, not_or] at h
    simp [split_once_list, Ne.symm h.1, ih h.2]

theorem exp_resolve_after_create (d now c : Int) (sid uid : String)
    (st : SessionExpAuth.ExpStore) :
    SessionExpAuth.user_id_for_session_id d now (some sid)
      (SessionExpAuth.create_session sid c (some uid) st).2 =
      if d ≤ 0 then some uid
      else if now > c + d then none
      else some uid := by
  simp [SessionExpAuth.create_session, SessionExpAuth.user_id_for_session_id,
    dict_get_dict_set_self]

/-! ## Claim theorems -/

/-- C2 (counterexample): the claim states that `require_auth` returns true
whenever the path is empty; yet for the empty path and exclusion list
`["/"]` the code normalizes `""` to `"/"`, matches the entry, and returns
false. -/
theorem claim_C2_empty_path_counterexample :
    Auth.require_auth (some "") (some ["/"]) = false := by
  decide

/-- C2 (amended): `require_auth(p, E)` returns false iff `p` is a present
path whose normalization (trailing separator enforced) matches some entry
of a present `E` — exactly for a wildcard entry by normalized prefix,
otherwise by normalized equality — and returns true whenever `p` is unset,
or `E` is unset or empty. (An empty-string path is normalized to the bare
separator and checked like any other path, which is the one correction to
the claim.) -/
theorem claim_C2_require_auth_characterization (p : Option String)
    (E : Option (List String)) :
    (Auth.require_auth p E = false ↔
      ∃ s es, p = some s ∧ E = some es ∧
        ∃ e ∈ es, excluded_match (normalize_path s) e = true) ∧
    Auth.require_auth none E = true ∧
    Auth.require_auth p none = true ∧
    Auth.require_auth p (some []) = true := by
  refine ⟨?_, ?_, ?_, ?_⟩
  · cases p with
    | none => simp [Auth.require_auth]
    | some s =>
      cases E with
      | none => simp [Auth.require_auth]
      | some es =>
        cases es with
        | nil => simp [Auth.require_auth]
        | cons e rest =>
          rw [show Auth.require_auth (some s) (some (e :: rest)) =
            Auth.require_auth_loop (normalize_path s) (e :: rest) by
              simp [Auth.require_auth]]
          rw [require_auth_loop_eq_false_iff]
          simp
  · cases E <;> simp [Auth.require_auth]
  · cases p <;> simp [Auth.require_auth]
  · cases p <;> simp [Auth.require_auth]

/-- C8: trailing-slash invariance — appending a separator to the path never
changes the decision of `require_auth`, for every exclusion list. -/
theorem claim_C8_trailing_slash_invariance (s : String)
    (E : Option (List String)) :
    Auth.require_auth (some (s ++ "/")) E = Auth.require_auth (some s) E := by
  cases E with
  | none => rfl
  | some es =>
    simp only [Auth.require_auth, normalize_path_append_slash]

/-- C9 (counterexample): the claim states the default strategy's
`require_auth` returns false for every path and list, but the default
strategy is the plain `Auth` class, whose `require_auth` returns true for
any non-excluded path. -/
theorem claim_C9_counterexample :
    Auth.require_auth (some "/api/v1/users") (some ["/api/v1/status/"]) = true := by
  decide

/-- C9 (amended): the default strategy (plain `Auth`): `current_user` is
absent for every request, while `require_auth` performs the shared
exclusion check — true for a non-excluded path, false for an excluded
one — rather than being constantly false. -/
theorem claim_C9_default_strategy :
    (∀ req : Option Request, Auth.current_user req = none) ∧
    Auth.require_auth (some "/api/v1/users") (some ["/api/v1/status/"]) = true ∧
    Auth.require_auth (some "/api/v1/status") (some ["/api/v1/status/"]) = false := by
  exact ⟨fun _ => rfl, by decide, by decide⟩

/-- C1 (code bug evaluation): a request on a gated path carrying no
Authorization header but a session cookie bound to a live session. The
active `before_request` aborts 401 without consulting the cookie, although
`current_user` would resolve the principal; the session-aware gate kept in
comments at the bottom of the same `app.py` (and described by the claim)
allows the request and attaches the resolved principal. -/
theorem claim_C1_gate_401_despite_session_cookie :
    before_request
        (some (session_strategy (some "_my_session_id") ["user1"]
          [("tok1", "user1")]))
        ⟨"/api/v1/users", [], [("_my_session_id", "tok1")]⟩ =
      GateDecision.unauthorized ∧
    SessionAuth.current_user (some "_my_session_id") ["user1"]
        [("tok1", "user1")]
        (some ⟨"/api/v1/users", [], [("_my_session_id", "tok1")]⟩) =
      some "user1" ∧
    before_request_commented
        (some (session_strategy (some "_my_session_id") ["user1"]
          [("tok1", "user1")]))
        ⟨"/api/v1/users", [], [("_my_session_id", "tok1")]⟩ =
      GateDecision.allow (some "user1") := by
  exact ⟨by decide, by decide, by decide⟩

/-- C3: BasicAuth credential extraction — absence for a missing header or
one not starting with `"Basic "`; decoding yields absence on any base64 or
UTF-8 failure (the embedding is total, mirroring the caught exceptions);
the decoded text splits on the first colon, with an absence-pair when no
colon occurs; and the documented example decodes to
`("Aladdin", "opensesame")`. -/
theorem claim_C3_basic_extraction :
    (BasicAuth.extract_base64_authorization_header none = none) ∧
    (∀ s : String, starts_with_data s.data "Basic ".data = false →
      BasicAuth.extract_base64_authorization_header (some s) = none) ∧
    (BasicAuth.decode_base64_authorization_header none = none) ∧
    (∀ s : String, b64decode s = none →
      BasicAuth.decode_base64_authorization_header (some s) = none) ∧
    (∀ (s : String) (bs : List Nat), b64decode s = some bs →
      utf8_decode bs = none →
      BasicAuth.decode_base64_authorization_header (some s) = none) ∧
    (BasicAuth.extract_user_credentials none = (none, none)) ∧
    (∀ s : String, ':' ∉ s.data →
      BasicAuth.extract_user_credentials (some s) = (none, none)) ∧
    (∀ a b : String, ':' ∉ a.data →
      BasicAuth.extract_user_credentials (some (a ++ ":" ++ b)) =
        (some a, some b)) ∧
    (BasicAuth.extract_base64_authorization_header
        (some "Basic QWxhZGRpbjpvcGVuc2VzYW1l") =
      some "QWxhZGRpbjpvcGVuc2VzYW1l") ∧
    (BasicAuth.decode_base64_authorization_header
        (some "QWxhZGRpbjpvcGVuc2VzYW1l") = some "Aladdin:opensesame") ∧
    (BasicAuth.extract_user_credentials (some "Aladdin:opensesame") =
      (some "Aladdin", some "opensesame")) := by
  refine ⟨rfl, ?_, rfl, ?_, ?_, rfl, ?_, ?_, by decide, by decide, by decide⟩
  · intro s h
    simp [BasicAuth.extract_base64_authorization_header, h]
  · intro s h
    simp [BasicAuth.decode_base64_authorization_header, h]
  · intro s bs h1 h2
    simp [BasicAuth.decode_base64_authorization_header, h1, h2]
  · intro s h
    simp [BasicAuth.extract_user_credentials, split_once,
      split_once_list_of_not_mem ':' s.data h]
  · intro a b h
    obtain ⟨la⟩ := a
    obtain ⟨lb⟩ := b
    have hdata : (String.mk la ++ ":" ++ String.mk lb).data =
        la ++ ':' :: lb := by
      simp [String.data_append]
    simp [BasicAuth.extract_user_credentials, split_once, hdata,
      split_once_list_append ':' la lb h]

/-- C3 witness: the hypotheses of `claim_C3_basic_extraction` discharged at
concrete inputs — a non-Basic header, a base64 failure (`"QQ"`), a UTF-8
failure (`"/w=="` decoding to byte 255), a colon-free credential text, and
a split of `"user:pw"`. -/
theorem claim_C3_basic_extraction_witness :
    BasicAuth.extract_base64_authorization_header (some "Bearer abc") = none ∧
    BasicAuth.decode_base64_authorization_header (some "QQ") = none ∧
    BasicAuth.decode_base64_authorization_header (some "/w==") = none ∧
    BasicAuth.extract_user_credentials (some "Aladdin") = (none, none) ∧
    BasicAuth.extract_user_credentials (some ("user" ++ ":" ++ "pw")) =
      (some "user", some "pw") := by
  obtain ⟨h1, h2, h3, h4, h5, h6, h7, h8, h9, h10, h11⟩ :=
    claim_C3_basic_extraction
  exact ⟨h2 "Bearer abc" (by decide), h4 "QQ" (by decide),
    h5 "/w==" [255] (by decide) (by decide), h7 "Aladdin" (by decide),
    h8 "user" "pw" (by decide)⟩

/-- C4: session registry round-trip — resolving the token returned by
`create_session(pid)` immediately after creation yields `pid`, and
`create_session` returns absence (leaving the registry untouched) exactly
in the case of an absent principal id. -/
theorem claim_C4_session_roundtrip (st : SessionAuth.SessionStore)
    (sid uid : String) :
    (SessionAuth.create_session sid (some uid) st).1 = some sid ∧
    SessionAuth.user_id_for_session_id
        (SessionAuth.create_session sid (some uid) st).1
        (SessionAuth.create_session sid (some uid) st).2 = some uid ∧
    SessionAuth.create_session sid none st = (none, st) := by
  refine ⟨rfl, ?_, rfl⟩
  simp [SessionAuth.create_session, SessionAuth.user_id_for_session_id,
    dict_get_dict_set_self]

/-- C5: SessionExpAuth expiry — for a session created at `c` with duration
`d > 0`, resolution returns the principal id at `t = c + d - 1` and absence
at `t = c + d + 1`; a non-positive duration never expires. -/
theorem claim_C5_session_expiry (d c t : Int) (sid uid : String)
    (st : SessionExpAuth.ExpStore) :
    (0 < d →
      SessionExpAuth.user_id_for_session_id d (c + d - 1) (some sid)
          (SessionExpAuth.create_session sid c (some uid) st).2 = some uid ∧
      SessionExpAuth.user_id_for_session_id d (c + d + 1) (some sid)
          (SessionExpAuth.create_session sid c (some uid) st).2 = none) ∧
    (d ≤ 0 →
      SessionExpAuth.user_id_for_session_id d t (some sid)
          (SessionExpAuth.create_session sid c (some uid) st).2 = some uid) := by
  constructor
  · intro hd
    constructor
    · rw [exp_resolve_after_create, if_neg (by omega), if_neg (by omega)]
    · rw [exp_resolve_after_create, if_neg (by omega), if_pos (by omega)]
  · intro hd
    rw [exp_resolve_after_create, if_pos hd]

/-- C5 witness: `claim_C5_session_expiry` applied at duration 5, creation
time 0 (valid at 4, expired at 6) and at duration 0 (still valid at 99). -/
theorem claim_C5_session_expiry_witness :
    (0 : Int) < 5 ∧
    SessionExpAuth.user_id_for_session_id 5 (0 + 5 - 1) (some "t")
        (SessionExpAuth.create_session "t" 0 (some "u") []).2 = some "u" ∧
    SessionExpAuth.user_id_for_session_id 5 (0 + 5 + 1) (some "t")
        (SessionExpAuth.create_session "t" 0 (some "u") []).2 = none ∧
    (0 : Int) ≤ 0 ∧
    SessionExpAuth.user_id_for_session_id 0 99 (some "t")
        (SessionExpAuth.create_session "t" 0 (some "u") []).2 = some "u" := by
  refine ⟨by decide, ?_, ?_, by decide, ?_⟩
  · exact ((claim_C5_session_expiry 5 0 99 "t" "u" []).1 (by decide)).1
  · exact ((claim_C5_session_expiry 5 0 99 "t" "u" []).1 (by decide)).2
  · exact (claim_C5_session_expiry 0 0 99 "t" "u" []).2 (by decide)

/-- C10: the expiry boundary is exclusive — at the exact instant
`now = created_at + d` (duration `d > 0`) the comparison
`datetime.now() > expiration_time` is false, so the stored principal id is
still returned; the validity interval is closed at its right endpoint. -/
theorem claim_C10_expiry_boundary (d c : Int) (sid uid : String)
    (st : SessionExpAuth.ExpStore) (hd : 0 < d) :
    SessionExpAuth.user_id_for_session_id d (c + d) (some sid)
        (SessionExpAuth.create_session sid c (some uid) st).2 = some uid := by
  rw [exp_resolve_after_create, if_neg (by omega), if_neg (by omega)]

/-- C10 witness: `claim_C10_expiry_boundary` at duration 3, creation time
0, read at instant 3. -/
theorem claim_C10_expiry_boundary_witness :
    (0 : Int) < 3 ∧
    SessionExpAuth.user_id_for_session_id 3 (0 + 3) (some "t")
        (SessionExpAuth.create_session "t" 0 (some "u") []).2 = some "u" :=
  ⟨by decide, claim_C10_expiry_boundary 3 0 "t" "u" [] (by decide)⟩

/-- C6 (counterexample): a persisted session created at time 0 with
configured duration 5, read at time 10 — past expiry, where
`SessionExpAuth`'s contract returns absence — still yields the principal id
from `SessionDBAuth.user_id_for_session_id`, which consults no timestamp. -/
theorem claim_C6_counterexample :
    (10 : Int) > 0 + 5 ∧
    SessionDBAuth.user_id_for_session_id (some "tok")
        [("tok", ⟨"u1", 0⟩)] = some "u1" ∧
    SessionExpAuth.user_id_for_session_id 5 10 (some "tok")
        [("tok", ⟨"u1", 0⟩)] = none := by
  exact ⟨by decide, by decide, by decide⟩

/-- C6 (amended): `SessionDBAuth.user_id_for_session_id` reads the durable
store but performs no expiry check — whenever a persisted record for the
token exists it returns the stored principal id, even at an instant past
`created_at + duration`. -/
theorem claim_C6_db_ignores_expiry (db : SessionDBAuth.DBStore)
    (sid uid : String) (c d now : Int)
    (hrec : SessionDBAuth.UserSession_get db sid = some ⟨uid, c⟩)
    (_hexp : now > c + d) :
    SessionDBAuth.user_id_for_session_id (some sid) db = some uid := by
  simp [SessionDBAuth.user_id_for_session_id, hrec]

/-- C6 witness: `claim_C6_db_ignores_expiry` at the store holding
`tok ↦ (u1, created 0)`, duration 5, read at time 10. -/
theorem claim_C6_db_ignores_expiry_witness :
    SessionDBAuth.UserSession_get [("tok", ⟨"u1", 0⟩)] "tok" =
      some ⟨"u1", 0⟩ ∧
    (10 : Int) > 0 + 5 ∧
    SessionDBAuth.user_id_for_session_id (some "tok")
        [("tok", ⟨"u1", 0⟩)] = some "u1" :=
  ⟨by decide, by decide,
    claim_C6_db_ignores_expiry [("tok", ⟨"u1", 0⟩)] "tok" "u1" 0 5 10
      (by decide) (by decide)⟩

/-- C7: `destroy_session(request)` for the session strategies
(`SessionAuth`, spec-modelled, over the in-memory registry; and
`SessionDBAuth`, from source, over the durable store): false when the
request, the session cookie, or the matching record is absent; a
successful destroy removes the record tied to the cookie's token, after
which resolving that token is absent and a second destroy returns false
leaving the state unchanged. -/
theorem claim_C7_destroy_session (session_name : Option String) (r : Request)
    (st : SessionAuth.SessionStore) (db : SessionDBAuth.DBStore)
    (sid uid : String) (rec : SessionDBAuth.UserSessionRecord) :
    (SessionAuth.destroy_session session_name none st = (false, st)) ∧
    (SessionDBAuth.destroy_session session_name none db = (false, db)) ∧
    (Auth.session_cookie session_name (some r) = none →
      SessionAuth.destroy_session session_name (some r) st = (false, st) ∧
      SessionDBAuth.destroy_session session_name (some r) db = (false, db)) ∧
    (Auth.session_cookie session_name (some r) = some sid →
      (dict_get st sid = none →
        SessionAuth.destroy_session session_name (some r) st = (false, st)) ∧
      (SessionDBAuth.UserSession_get db sid = none →
        SessionDBAuth.destroy_session session_name (some r) db = (false, db)) ∧
      (dict_get st sid = some uid →
        SessionAuth.destroy_session session_name (some r) st =
          (true, dict_del st sid) ∧
        SessionAuth.user_id_for_session_id (some sid) (dict_del st sid) =
          none ∧
        SessionAuth.destroy_session session_name (some r) (dict_del st sid) =
          (false, dict_del st sid)) ∧
      (SessionDBAuth.UserSession_get db sid = some rec →
        SessionDBAuth.destroy_session session_name (some r) db =
          (true, SessionDBAuth.UserSession_remove db sid) ∧
        SessionDBAuth.user_id_for_session_id (some sid)
          (SessionDBAuth.UserSession_remove db sid) = none ∧
        SessionDBAuth.destroy_session session_name (some r)
            (SessionDBAuth.UserSession_remove db sid) =
          (false, SessionDBAuth.UserSession_remove db sid))) := by
  refine ⟨rfl, rfl, ?_, ?_⟩
  · intro hc
    constructor
    · simp [SessionAuth.destroy_session, hc]
    · simp [SessionDBAuth.destroy_session, hc]
  · intro hc
    refine ⟨?_, ?_, ?_, ?_⟩
    · intro hg
      simp [SessionAuth.destroy_session, hc, hg]
    · intro hg
      simp [SessionDBAuth.destroy_session, hc, hg]
    · intro hg
      refine ⟨?_, ?_, ?_⟩
      · simp [SessionAuth.destroy_session, hc, hg]
      · simp [SessionAuth.user_id_for_session_id, dict_get_dict_del_self]
      · simp [SessionAuth.destroy_session, hc, dict_get_dict_del_self]
    · intro hg
      refine ⟨?_, ?_, ?_⟩
      · simp [SessionDBAuth.destroy_session, hc, hg]
      · simp [SessionDBAuth.user_id_for_session_id,
          SessionDBAuth.UserSession_get, SessionDBAuth.UserSession_remove,
          dict_get_dict_del_self]
      · simp [SessionDBAuth.destroy_session, SessionDBAuth.UserSession_get,
          SessionDBAuth.UserSession_remove, hc, dict_get_dict_del_self]

/-- C7 witness: `claim_C7_destroy_session` applied at three concrete
configurations — a request without the session cookie, a request whose
cookie names an unknown token, and a request whose cookie names a live
token in both registries. -/
theorem claim_C7_destroy_session_witness :
    (SessionAuth.destroy_session (some "_my_session_id")
        (some ⟨"/", [], []⟩) [("tok1", "u1")] = (false, [("tok1", "u1")]) ∧
      SessionDBAuth.destroy_session (some "_my_session_id")
        (some ⟨"/", [], []⟩) [("tok1", ⟨"u1", 0⟩)] =
        (false, [("tok1", ⟨"u1", 0⟩)])) ∧
    SessionAuth.destroy_session (some "_my_session_id")
        (some ⟨"/", [], [("_my_session_id", "tok9")]⟩) [("tok1", "u1")] =
      (false, [("tok1", "u1")]) ∧
    SessionDBAuth.destroy_session (some "_my_session_id")
        (some ⟨"/", [], [("_my_session_id", "tok9")]⟩)
        [("tok1", ⟨"u1", 0⟩)] = (false, [("tok1", ⟨"u1", 0⟩)]) ∧
    (SessionAuth.destroy_session (some "_my_session_id")
        (some ⟨"/", [], [("_my_session_id", "tok1")]⟩) [("tok1", "u1")] =
        (true, dict_del [("tok1", "u1")] "tok1") ∧
      SessionAuth.user_id_for_session_id (some "tok1")
        (dict_del [("tok1", "u1")] "tok1") = none ∧
      SessionAuth.destroy_session (some "_my_session_id")
        (some ⟨"/", [], [("_my_session_id", "tok1")]⟩)
        (dict_del [("tok1", "u1")] "tok1") =
        (false, dict_del [("tok1", "u1")] "tok1")) ∧
    (SessionDBAuth.destroy_session (some "_my_session_id")
        (some ⟨"/", [], [("_my_session_id", "tok1")]⟩)
        [("tok1", ⟨"u1", 0⟩)] =
        (true, SessionDBAuth.UserSession_remove [("tok1", ⟨"u1", 0⟩)] "tok1") ∧
      SessionDBAuth.user_id_for_session_id (some "tok1")
        (SessionDBAuth.UserSession_remove [("tok1", ⟨"u1", 0⟩)] "tok1") =
        none ∧
      SessionDBAuth.destroy_session (some "_my_session_id")
        (some ⟨"/", [], [("_my_session_id", "tok1")]⟩)
        (SessionDBAuth.UserSession_remove [("tok1", ⟨"u1", 0⟩)] "tok1") =
        (false, SessionDBAuth.UserSession_remove [("tok1", ⟨"u1", 0⟩)] "tok1")) := by
  refine ⟨?_, ?_, ?_, ?_, ?_⟩
  · exact (claim_C7_destroy_session (some "_my_session_id") ⟨"/", [], []⟩
      [("tok1", "u1")] [("tok1", ⟨"u1", 0⟩)] "tok1" "u1" ⟨"u1", 0⟩).2.2.1
      (by decide)
  · exact ((claim_C7_destroy_session (some "_my_session_id")
      ⟨"/", [], [("_my_session_id", "tok9")]⟩ [("tok1", "u1")]
      [("tok1", ⟨"u1", 0⟩)] "tok9" "u1" ⟨"u1", 0⟩).2.2.2 (by decide)).1
      (by decide)
  · exact (((claim_C7_destroy_session (some "_my_session_id")
      ⟨"/", [], [("_my_session_id", "tok9")]⟩ [("tok1", "u1")]
      [("tok1", ⟨"u1", 0⟩)] "tok9" "u1" ⟨"u1", 0⟩).2.2.2 (by decide)).2.1)
      (by decide)
  · exact (((claim_C7_destroy_session (some "_my_session_id")
      ⟨"/", [], [("_my_session_id", "tok1")]⟩ [("tok1", "u1")]
      [("tok1", ⟨"u1", 0⟩)] "tok1" "u1" ⟨"u1", 0⟩).2.2.2 (by decide)).2.2.1)
      (by decide)
  · exact (((claim_C7_destroy_session (some "_my_session_id")
      ⟨"/", [], [("_my_session_id", "tok1")]⟩ [("tok1", "u1")]
      [("tok1", ⟨"u1", 0⟩)] "tok1" "u1" ⟨"u1", 0⟩).2.2.2 (by decide)).2.2.2)
      (by decide)
